import Mathlib

/-!
Shallow embedding of the comment-coordination backend
(`src/backend/src/sql.rs` and `src/backend/src/main.rs`).

The relational store is modeled as explicit lists of rows (one list per
table), the database clock as a `Nat` of seconds passed in by the caller,
the RNG as a list of candidate uuid strings supplied by the environment,
and the retry loops of the source as structural recursion over the list of
environment inputs they consume (an exhausted list models a loop that has
not yet terminated, surfaced as `none`).

The published-comment identifier derivation of `add_comment` is embedded
concretely: uuid-v5 over SHA-1, exactly as the `uuid` crate computes
`Uuid::new_v5`, with characters modeled by their code points (all inputs
relevant here are ASCII, where code point and UTF-8 byte coincide).
-/

namespace Backend

/-- Truncate a natural number to 32 bits (the `u32` word arithmetic of SHA-1). -/
def w32 (n : Nat) : Nat := n &&& 0xFFFFFFFF

/-- Rotate a 32-bit word left by `b` bits. -/
def rotl (b n : Nat) : Nat := w32 ((n <<< b) ||| (n >>> (32 - b)))

/-- Round function of SHA-1 for round `t`. -/
def sha1F (t b c d : Nat) : Nat :=
  if t < 20 then (b &&& c) ||| ((b ^^^ 0xFFFFFFFF) &&& d)
  else if t < 40 then b ^^^ c ^^^ d
  else if t < 60 then (b &&& c) ||| (b &&& d) ||| (c &&& d)
  else b ^^^ c ^^^ d

/-- Round constant of SHA-1 for round `t`. -/
def sha1K (t : Nat) : Nat :=
  if t < 20 then 0x5A827999
  else if t < 40 then 0x6ED9EBA1
  else if t < 60 then 0x8F1BBCDC
  else 0xCA62C1D6

/-- Big-endian 8-byte encoding of a length in bits. -/
def be8 (n : Nat) : List Nat :=
  [(n >>> 56) &&& 255, (n >>> 48) &&& 255, (n >>> 40) &&& 255, (n >>> 32) &&& 255,
   (n >>> 24) &&& 255, (n >>> 16) &&& 255, (n >>> 8) &&& 255, n &&& 255]

/-- SHA-1 padding: append `0x80`, zero bytes to 56 mod 64, then the bit length. -/
def sha1Pad (m : List Nat) : List Nat :=
  m ++ [0x80] ++ List.replicate ((119 - (m.length % 64)) % 64) 0 ++ be8 (m.length * 8)

/-- Group a byte list into big-endian 32-bit words (four bytes per word). -/
def bytesToWords : List Nat → List Nat
  | a :: b :: c :: d :: rest => ((((a <<< 8) ||| b) <<< 8 ||| c) <<< 8 ||| d) :: bytesToWords rest
  | _ => []

/-- Split a byte list into 64-byte chunks, with explicit fuel for structural recursion. -/
def chunks64 : Nat → List Nat → List (List Nat)
  | 0, _ => []
  | _ + 1, [] => []
  | fuel + 1, l => l.take 64 :: chunks64 fuel (l.drop 64)

/-- Extend the reversed word schedule by `k` further words
(`w[i] = rotl 1 (w[i-3] xor w[i-8] xor w[i-14] xor w[i-16])`). -/
def sha1Extend (rws : List Nat) : Nat → List Nat
  | 0 => rws
  | k + 1 =>
    sha1Extend
      (rotl 1 ((rws.getD 2 0) ^^^ (rws.getD 7 0) ^^^ (rws.getD 13 0) ^^^ (rws.getD 15 0)) :: rws) k

/-- One SHA-1 compression round applied to `(t, a, b, c, d, e)` and word `w`. -/
def sha1Round (st : Nat × Nat × Nat × Nat × Nat × Nat) (w : Nat) :
    Nat × Nat × Nat × Nat × Nat × Nat :=
  match st with
  | (t, a, b, c, d, e) =>
    (t + 1, w32 (rotl 5 a + sha1F t b c d + e + sha1K t + w), a, rotl 30 b, c, d)

/-- Process one 64-byte chunk, updating the five hash words. -/
def sha1Chunk (h : Nat × Nat × Nat × Nat × Nat) (chunk : List Nat) :
    Nat × Nat × Nat × Nat × Nat :=
  match h with
  | (h0, h1, h2, h3, h4) =>
    let ws := (sha1Extend (bytesToWords chunk).reverse 64).reverse
    match ws.foldl sha1Round (0, h0, h1, h2, h3, h4) with
    | (_, a, b, c, d, e) => (w32 (h0 + a), w32 (h1 + b), w32 (h2 + c), w32 (h3 + d), w32 (h4 + e))

/-- Big-endian 4-byte encoding of a 32-bit word. -/
def wordBytes (n : Nat) : List Nat :=
  [(n >>> 24) &&& 255, (n >>> 16) &&& 255, (n >>> 8) &&& 255, n &&& 255]

/-- SHA-1 of a byte list, as the 20-byte digest. -/
def sha1 (m : List Nat) : List Nat :=
  let padded := sha1Pad m
  match (chunks64 (padded.length + 1) padded).foldl sha1Chunk
      (0x67452301, 0xEFCDAB89, 0x98BADCFE, 0x10325476, 0xC3D2E1F0) with
  | (h0, h1, h2, h3, h4) =>
    wordBytes h0 ++ wordBytes h1 ++ wordBytes h2 ++ wordBytes h3 ++ wordBytes h4

/-- Set the uuid version (5) and variant bits on a 16-byte buffer,
as `uuid::Builder::from_bytes` does for `Uuid::new_v5`. -/
def setVersionV5 (bs : List Nat) : List Nat :=
  (bs.set 6 (((bs.getD 6 0) &&& 0x0F) ||| 0x50)).set 8 (((bs.getD 8 0) &&& 0x3F) ||| 0x80)

/-- Raw 16 bytes of a version-5 uuid of the given input bytes
(namespace bytes already prepended by the caller). -/
def v5bytes (input : List Nat) : List Nat := setVersionV5 ((sha1 input).take 16)

/-- Lowercase hex digit. -/
def hexDigit (n : Nat) : Char := if n < 10 then Char.ofNat (48 + n) else Char.ofNat (87 + n)

/-- Two lowercase hex digits of a byte. -/
def byteHex (b : Nat) : List Char := [hexDigit (b / 16), hexDigit (b % 16)]

/-- Hex string of a byte list. -/
def hexCat (bs : List Nat) : List Char := (bs.map byteHex).flatten

/-- Hyphenated lowercase rendering of a 16-byte uuid, as `uuid::Uuid::to_string`. -/
def formatUuid (bs : List Nat) : String :=
  ⟨hexCat (bs.take 4) ++ ['-'] ++ hexCat ((bs.drop 4).take 2) ++ ['-'] ++
   hexCat ((bs.drop 6).take 2) ++ ['-'] ++ hexCat ((bs.drop 8).take 2) ++ ['-'] ++
   hexCat (bs.drop 10)⟩

/-- Bytes of a string, with characters modeled by their code points. -/
def strBytes (s : String) : List Nat := s.data.map Char.toNat

/-- The 16 bytes of `uuid::Uuid::NAMESPACE_DNS`
(6ba7b810-9dad-11d1-80b4-00c04fd430c8). -/
def dnsNamespaceBytes : List Nat :=
  [0x6b, 0xa7, 0xb8, 0x10, 0x9d, 0xad, 0x11, 0xd1, 0x80, 0xb4, 0x00, 0xc0, 0x4f, 0xd4, 0x30, 0xc8]

/-- Bytes of `uuid::Uuid::new_v5(NAMESPACE_DNS, "seodisparate.com")`,
the namespace `add_comment` derives publish ids under. -/
def seodisparateNamespace : List Nat :=
  v5bytes (dnsNamespaceBytes ++ strBytes "seodisparate.com")

/-- The concatenated hash input of `add_comment`: `blog_post_id`, then the
decimal `user_id`, then the timestamp string, with no separators. -/
def combinedBytes (post : String) (uid : Nat) (t : String) : List Nat :=
  strBytes post ++ strBytes (toString uid) ++ strBytes t

/-- The published-comment id `add_comment` derives:
`Uuid::new_v5(namespace, combined)` rendered as a string. -/
def derivePublishId (post : String) (uid : Nat) (t : String) : String :=
  formatUuid (v5bytes (seodisparateNamespace ++ combinedBytes post uid t))

/-- Row of the `COMMENT` table (a published comment).  The two
database-defaulted audit timestamps (`creation_date`, `edit_date`) are not
modeled: no claim reads them. -/
structure CommentRow where
  uuid : String
  blog_post_id : String
  user_id : Nat
  username : String
  userurl : String
  useravatar : String
  comment : String
deriving DecidableEq

/-- Row of the `PSEUDO_COMMENT` table (a pending, identity-bound action).
`date` is the row period start (seconds); the period end `date2` is always
`date + 1`. -/
structure PseudoRow where
  uuid : String
  state : String
  user_id : Nat
  username : String
  userurl : String
  useravatar : String
  blog_post_id : Option String
  comment_id : Option String
  date : Nat
deriving DecidableEq

/-- Row of the `GITHUB_RNG` table (an issued correlation token).  `date` is
the row period start; the period end is `date + 1`. -/
structure RngRow where
  uuid : String
  date : Nat
deriving DecidableEq

/-- The whole relational store: one list per table. -/
structure Store where
  comments : List CommentRow
  pseudo : List PseudoRow
  rng : List RngRow
deriving DecidableEq

/-- The expiry window of the reap statements: 60 minutes, in seconds. -/
def expiryWindow : Nat := 3600

/-- Whether a `GITHUB_RNG` row survives the reap
`DELETE ... FOR PORTION OF date_period FROM '0-0-0' TO SUBDATE(now, 60 MINUTE)`:
a row with period `[date, date+1)` is removed exactly when the whole period
lies before `now - 60min`, i.e. kept when `now < date + 1 + window`.
(With integer-second periods of length one, truncation of a row to a sub-period cannot occur.) -/
def rngRowLive (now : Nat) (r : RngRow) : Bool := decide (now < r.date + 1 + expiryWindow)

/-- The reap of expired `GITHUB_RNG` rows. -/
def reapRng (now : Nat) (l : List RngRow) : List RngRow := l.filter (rngRowLive now)

/-- Whether a `PSEUDO_COMMENT` row survives the identical reap statement on
its table. -/
def pseudoRowLive (now : Nat) (r : PseudoRow) : Bool := decide (now < r.date + 1 + expiryWindow)

/-- The reap of expired `PSEUDO_COMMENT` rows. -/
def reapPseudo (now : Nat) (l : List PseudoRow) : List PseudoRow := l.filter (pseudoRowLive now)

/-- Model of `sql.rs::has_psuedo_commment_with_state` (source spelling kept):
whether some `PSEUDO_COMMENT` row has the given `state`. -/
def has_psuedo_commment_with_state (pseudo : List PseudoRow) (state : String) : Bool :=
  pseudo.any (fun r => r.state == state)

/-- Model of `sql.rs::create_rng_uuid`: reap expired `GITHUB_RNG` rows, re-roll a
random uuid while it collides with some `PSEUDO_COMMENT.state`, insert it
into `GITHUB_RNG`, and return it.  `candidates` is the stream of values the
RNG would produce; an exhausted stream models the re-roll loop not having
terminated (`none`).  The `INSERT` fails if the chosen uuid already sits in
`GITHUB_RNG` (primary key; the loop only checked `PSEUDO_COMMENT`). -/
def create_rng_uuid (store : Store) (now : Nat) (candidates : List String) :
    Option (Store × Except String String) :=
  let rng2 := reapRng now store.rng
  match candidates.find? (fun c => !has_psuedo_commment_with_state store.pseudo c) with
  | none => none
  | some c =>
    if rng2.any (fun r => r.uuid == c) then
      some ({ store with rng := rng2 }, Except.error "Duplicate entry for key PRIMARY")
    else
      some ({ store with rng := rng2 ++ [⟨c, now⟩] }, Except.ok c)

/-- Model of `sql.rs::check_rng_uuid`: reap expired `GITHUB_RNG` rows, then report
whether the given uuid is present. -/
def check_rng_uuid (store : Store) (now : Nat) (u : String) : Store × Bool :=
  let rng2 := reapRng now store.rng
  ({ store with rng := rng2 }, rng2.any (fun r => r.uuid == u))

/-- Model of `sql.rs::check_remove_rng_uuid`: reap, then delete the uuid if present,
reporting whether it was found. -/
def check_remove_rng_uuid (store : Store) (now : Nat) (u : String) : Store × Bool :=
  let rng2 := reapRng now store.rng
  if rng2.any (fun r => r.uuid == u) then
    ({ store with rng := rng2.filter (fun r => !(r.uuid == u)) }, true)
  else
    ({ store with rng := rng2 }, false)

/-- Model of `sql.rs::add_pseudo_comment_data`: reap expired `PSEUDO_COMMENT` rows,
re-roll a row uuid while it collides with an existing `PSEUDO_COMMENT.uuid`,
then insert the identity-bound pending row.  The insert fails if `state` is
already present (`state` is `UNIQUE`). -/
def add_pseudo_comment_data (store : Store) (now : Nat) (state : String) (user_id : Nat)
    (user_name user_url user_avatar_url : String)
    (blog_post_id comment_id : Option String) (candidates : List String) :
    Option (Store × Except String String) :=
  let ps2 := reapPseudo now store.pseudo
  match candidates.find? (fun c => !ps2.any (fun r => r.uuid == c)) with
  | none => none
  | some c =>
    if ps2.any (fun r => r.state == state) then
      some ({ store with pseudo := ps2 }, Except.error "Duplicate entry for key state")
    else
      some ({ store with
                pseudo := ps2 ++
                  [⟨c, state, user_id, user_name, user_url, user_avatar_url,
                    blog_post_id, comment_id, now⟩] },
            Except.ok c)

/-- The retry loop of `sql.rs::add_comment`: derive a publish id from the
blog post id, the owner id and the current timestamp; while the id collides
with an existing `COMMENT.uuid`, sleep one second and re-derive from a fresh
timestamp.  `times` is the stream of timestamp strings the clock would
produce (one per attempt); an exhausted stream models the loop not having
terminated (`none`). -/
def derive_loop (comments : List CommentRow) (blog : String) (uid : Nat) :
    List String → Option String
  | [] => none
  | t :: ts =>
    if comments.any (fun r => r.uuid == derivePublishId blog uid t) then
      derive_loop comments blog uid ts
    else some (derivePublishId blog uid t)

/-- Model of `sql.rs::add_comment`: look up the pending row by correlation token
(`state`); if absent, fail; otherwise derive a collision-free publish id
(note: no reap is run here), insert the published comment, delete the
pending rows with this `state`, and return the blog post id.  A `NULL`
`blog_post_id` fails the row conversion, as `exec_map` into a `String`
would. -/
def add_comment (store : Store) (state : String) (comment : String) (times : List String) :
    Option (Store × Except String String) :=
  match store.pseudo.filter (fun r => r.state == state) with
  | [] =>
    some (store,
      Except.error "PsuedoComment not found, Commentor not authenticated or timed out!")
  | p :: _ =>
    match p.blog_post_id with
    | none => some (store, Except.error "Could not retrieve alloc::string::String from Value")
    | some blog =>
      match derive_loop store.comments blog p.user_id times with
      | none => none
      | some id =>
        some ({ store with
                  comments := store.comments ++
                    [⟨id, blog, p.user_id, p.username, p.userurl, p.useravatar, comment⟩],
                  pseudo := store.pseudo.filter (fun r => !(r.state == state)) },
              Except.ok blog)

/-- Model of `sql.rs::check_edit_comment_auth`: whether a `COMMENT` row with the
given uuid and owner id exists.  The callers pass the authenticated user id
rendered in decimal; it is modeled numerically. -/
def check_edit_comment_auth (store : Store) (cid : String) (uid : Nat) : Bool :=
  store.comments.any (fun r => r.uuid == cid && r.user_id == uid)

/-- Model of `sql.rs::try_delete_comment`:
`DELETE FROM COMMENT WHERE uuid = ? AND user_id = ?` — the predicate names
both the comment id and the owner id. -/
def try_delete_comment (store : Store) (cid : String) (uid : Nat) : Store :=
  { store with comments := store.comments.filter (fun r => !(r.uuid == cid && r.user_id == uid)) }

/-- Model of `sql.rs::edit_comment`: look up the pending row by correlation token; if
absent, fail; otherwise overwrite the identity snapshot and body of the
`COMMENT` row the pending row points at (no reap is run here either), and
delete the pending rows with this `state`. -/
def edit_comment (store : Store) (state : String) (comment : String) :
    Store × Except String Unit :=
  match store.pseudo.filter (fun r => r.state == state) with
  | [] =>
    (store, Except.error "PsuedoComment not found, Commentor not authenticated or timed out!")
  | p :: _ =>
    match p.comment_id with
    | none => (store, Except.error "Could not retrieve alloc::string::String from Value")
    | some cid =>
      ({ store with
          comments := store.comments.map (fun r =>
            if r.uuid == cid then
              { r with username := p.username, userurl := p.userurl,
                       useravatar := p.useravatar, comment := comment }
            else r),
          pseudo := store.pseudo.filter (fun r => !(r.state == state)) },
       Except.ok ())

/-- The externally supplied, already verified GitHub identity (the OAuth
relay is an external collaborator; the handler models start after it
resolved). -/
structure GithubIdentity where
  user_id : Nat
  name : String
  html_url : String
  avatar_url : String
deriving DecidableEq

/-- Outcome a handler reports to the browser. -/
inductive HandlerResponse where
  | badRequestTimeout
  | badRequestNotOwner
  | pageOk
  | redirectPage (token : String) (target : String)
  | internalError (msg : String)
deriving DecidableEq

/-- Model of `main.rs::login_to_edit_comment`: issue a fresh correlation token via
`create_rng_uuid` and answer with the OAuth redirect page carrying it.  The
requested `comment_id` is only embedded in the redirect url; the store is
never consulted about it. -/
def login_to_edit_comment (store : Store) (now : Nat) (comment_id : String)
    (candidates : List String) : Option (Store × HandlerResponse) :=
  match create_rng_uuid store now candidates with
  | none => none
  | some (store2, Except.error e) => some (store2, HandlerResponse.internalError e)
  | some (store2, Except.ok tok) =>
    some (store2, HandlerResponse.redirectPage tok comment_id)

/-- Model of `main.rs::github_auth_make_comment`, from the point the OAuth callback
arrives: validate the `state` token (reap + lookup), then — after the
external identity fetch, modeled as the given `ident` — record the pending
create binding via `add_pseudo_comment_data` with the blog post id. -/
def github_auth_make_comment (store : Store) (now : Nat) (blog_id state : String)
    (ident : GithubIdentity) (candidates : List String) : Option (Store × HandlerResponse) :=
  match check_rng_uuid store now state with
  | (store2, false) => some (store2, HandlerResponse.badRequestTimeout)
  | (store2, true) =>
    match add_pseudo_comment_data store2 now state ident.user_id ident.name ident.html_url
        ident.avatar_url (some blog_id) none candidates with
    | none => none
    | some (store3, Except.error e) => some (store3, HandlerResponse.internalError e)
    | some (store3, Except.ok _) => some (store3, HandlerResponse.pageOk)

/-- Model of `main.rs::github_auth_edit_comment`, from the point the OAuth callback
arrives: validate the `state` token, resolve the identity (modeled as
`ident`), check ownership of the target comment via
`check_edit_comment_auth`, and only then record the pending edit binding via
`add_pseudo_comment_data` with the comment id. -/
def github_auth_edit_comment (store : Store) (now : Nat) (comment_id state : String)
    (ident : GithubIdentity) (candidates : List String) : Option (Store × HandlerResponse) :=
  match check_rng_uuid store now state with
  | (store2, false) => some (store2, HandlerResponse.badRequestTimeout)
  | (store2, true) =>
    if !check_edit_comment_auth store2 comment_id ident.user_id then
      some (store2, HandlerResponse.badRequestNotOwner)
    else
      match add_pseudo_comment_data store2 now state ident.user_id ident.name ident.html_url
          ident.avatar_url none (some comment_id) candidates with
      | none => none
      | some (store3, Except.error e) => some (store3, HandlerResponse.internalError e)
      | some (store3, Except.ok _) => some (store3, HandlerResponse.pageOk)

/-- Outcome of one identity-fetch attempt against the GitHub API:
a transport error, a non-2xx response, or a success. -/
inductive FetchOutcome where
  | transportError
  | httpError
  | ok
deriving DecidableEq

/-- Upstream action of the OAuth relay portion of
`main.rs::github_auth_make_comment`. -/
inductive RelayEvent where
  | exchangeCall
  | fetchCall
  | sleepThreeSeconds
deriving DecidableEq

/-- The `for _idx in 0..3` identity-fetch retry loop: each attempt issues a
fetch; success breaks out, any failure sleeps three seconds and retries
while attempts remain.  Returns the upstream events and whether a response
was obtained. -/
def fetch_identity_loop : List FetchOutcome → Nat → List RelayEvent × Bool
  | _, 0 => ([], false)
  | [], _ + 1 => ([], false)
  | r :: rest, n + 1 =>
    match r with
    | FetchOutcome.ok => ([RelayEvent.fetchCall], true)
    | _ =>
      let rec2 := fetch_identity_loop rest n
      (RelayEvent.fetchCall :: RelayEvent.sleepThreeSeconds :: rec2.1, rec2.2)

/-- The OAuth relay portion of `main.rs::github_auth_make_comment`: one
authorization-code exchange, then the fetch loop with three attempts. -/
def github_auth_relay (rs : List FetchOutcome) : List RelayEvent × Bool :=
  let f := fetch_identity_loop rs 3
  (RelayEvent.exchangeCall :: f.1, f.2)

theorem check_edit_comment_auth_iff (store : Store) (c : String) (u : Nat) :
    check_edit_comment_auth store c u = true ↔
      ∃ r ∈ store.comments, r.uuid = c ∧ r.user_id = u := by
  simp [check_edit_comment_auth, List.any_eq_true]

theorem check_edit_comment_auth_eq_false (store : Store) (c : String) (u u1 : Nat)
    (hown : ∀ r ∈ store.comments, r.uuid = c → r.user_id = u1) (hne : u ≠ u1) :
    check_edit_comment_auth store c u = false := by
  rw [← Bool.not_eq_true, check_edit_comment_auth_iff]
  rintro ⟨r, hr, huuid, huser⟩
  exact hne (huser ▸ hown r hr huuid)

theorem github_auth_edit_comment_rejects (store : Store) (now : Nat) (c state : String)
    (ident : GithubIdentity) (cands : List String)
    (hfail : check_edit_comment_auth store c ident.user_id = false) :
    ∃ resp, github_auth_edit_comment store now c state ident cands
        = some ({ store with rng := reapRng now store.rng }, resp)
      ∧ (resp = HandlerResponse.badRequestTimeout ∨ resp = HandlerResponse.badRequestNotOwner) := by
  have hfail2 : check_edit_comment_auth { store with rng := reapRng now store.rng } c
      ident.user_id = false := by
    simpa [check_edit_comment_auth] using hfail
  unfold github_auth_edit_comment
  rw [check_rng_uuid]
  cases hb : (reapRng now store.rng).any (fun r => r.uuid == state)
  · exact ⟨HandlerResponse.badRequestTimeout, rfl, Or.inl rfl⟩
  · exact ⟨HandlerResponse.badRequestNotOwner, by simp [hfail2], Or.inr rfl⟩

/-- C1: the ownership gate `check_edit_comment_auth` returns true exactly
when a published `COMMENT` row with the given id and owner exists, and the
delete statement of `try_delete_comment` conditions on both the comment id
and the owner id, so it never removes a row whose owner differs from the
given identity (and removes no row that was not already present). -/
theorem C1_ownership_gate_and_delete_predicate (store : Store) (c : String) (u : Nat) :
    (check_edit_comment_auth store c u = true ↔
      ∃ r ∈ store.comments, r.uuid = c ∧ r.user_id = u)
    ∧ (∀ r ∈ store.comments, r.user_id ≠ u → r ∈ (try_delete_comment store c u).comments)
    ∧ (∀ r ∈ (try_delete_comment store c u).comments, r ∈ store.comments) := by
  refine ⟨check_edit_comment_auth_iff store c u, ?_, ?_⟩
  · intro r hr hne
    simp [try_delete_comment, List.mem_filter, hr]
    exact Or.inr hne
  · intro r hr
    exact List.mem_of_mem_filter hr

/-- C1 witness: on a one-row store the gate accepts the owner, and deleting
with a different identity keeps the row. -/
theorem C1_witness :
    check_edit_comment_auth ⟨[⟨"c1", "p", 1, "n", "u", "a", "t"⟩], [], []⟩ "c1" 1 = true
    ∧ (⟨"c1", "p", 1, "n", "u", "a", "t"⟩ : CommentRow) ∈
        (try_delete_comment ⟨[⟨"c1", "p", 1, "n", "u", "a", "t"⟩], [], []⟩ "c1" 2).comments := by
  constructor
  · exact (C1_ownership_gate_and_delete_predicate ⟨[⟨"c1", "p", 1, "n", "u", "a", "t"⟩], [], []⟩
      "c1" 1).1.mpr ⟨⟨"c1", "p", 1, "n", "u", "a", "t"⟩, by simp, rfl, rfl⟩
  · exact (C1_ownership_gate_and_delete_predicate ⟨[⟨"c1", "p", 1, "n", "u", "a", "t"⟩], [], []⟩
      "c1" 2).2.1 ⟨"c1", "p", 1, "n", "u", "a", "t"⟩ (by simp) (by decide)

/-- C2: if every published row with id `c1` is owned by `u1` and the
authenticated identity differs from `u1`, then the edit-bind callback
rejects before recording anything: the pseudo table (and the comment table)
of the resulting store is unchanged, so no pending edit binding carrying the
foreign identity is ever written. -/
theorem C2_no_foreign_edit_bind (store : Store) (now : Nat) (c1 state : String)
    (ident : GithubIdentity) (cands : List String) (u1 : Nat)
    (hown : ∀ r ∈ store.comments, r.uuid = c1 → r.user_id = u1)
    (hne : ident.user_id ≠ u1) :
    ∃ store2 resp, github_auth_edit_comment store now c1 state ident cands = some (store2, resp)
      ∧ store2.pseudo = store.pseudo ∧ store2.comments = store.comments
      ∧ (resp = HandlerResponse.badRequestTimeout
          ∨ resp = HandlerResponse.badRequestNotOwner) := by
  obtain ⟨resp, heq, hr⟩ := github_auth_edit_comment_rejects store now c1 state ident cands
    (check_edit_comment_auth_eq_false store c1 ident.user_id u1 hown hne)
  exact ⟨_, resp, heq, rfl, rfl, hr⟩

/-- C2 witness: a store holding comment `c1` owned by identity 1 and a live
token; identity 2 attempting the edit-bind is rejected with the pseudo table
untouched. -/
theorem C2_witness :
    ∃ store2 resp,
      github_auth_edit_comment ⟨[⟨"c1", "p", 1, "n", "u", "a", "t"⟩], [], [⟨"tok", 0⟩]⟩ 0 "c1"
          "tok" ⟨2, "n2", "u2", "a2"⟩ ["x"] = some (store2, resp)
        ∧ store2.pseudo = (⟨[⟨"c1", "p", 1, "n", "u", "a", "t"⟩], [], [⟨"tok", 0⟩]⟩ : Store).pseudo
        ∧ store2.comments
            = (⟨[⟨"c1", "p", 1, "n", "u", "a", "t"⟩], [], [⟨"tok", 0⟩]⟩ : Store).comments
        ∧ (resp = HandlerResponse.badRequestTimeout
            ∨ resp = HandlerResponse.badRequestNotOwner) :=
  C2_no_foreign_edit_bind ⟨[⟨"c1", "p", 1, "n", "u", "a", "t"⟩], [], [⟨"tok", 0⟩]⟩ 0 "c1" "tok"
    ⟨2, "n2", "u2", "a2"⟩ ["x"] 1 (by intro r hr h; simp at hr; rw [hr]) (by decide)

/-- C3 counterexample: binding with the token "tok", which was never issued
(the only `GITHUB_RNG` row carries a different, expired token), is rejected
as expected — but the call does NOT leave the store unchanged: the lazy reap
inside `check_rng_uuid` deletes the expired row, so a row is deleted by the
failed call, contradicting the claim. -/
theorem C3_counterexample :
    github_auth_make_comment ⟨[], [], [⟨"old", 0⟩]⟩ 10000 "blog" "tok" ⟨5, "n", "u", "a"⟩ ["cand"]
      = some (⟨[], [], []⟩, HandlerResponse.badRequestTimeout)
    ∧ (⟨[], [], [⟨"old", 0⟩]⟩ : Store) ≠ ⟨[], [], []⟩ := by decide

/-- C3 amended: binding with a token absent from `GITHUB_RNG` is rejected
before the identity is recorded — no row is inserted (pseudo and comment
tables unchanged) — but the call first runs the lazy reap, so expired token
rows may be deleted; the resulting token table is exactly the reap of the
old one, a subset of it. -/
theorem C3_amended_unissued_token_rejected (store : Store) (now : Nat) (blog state : String)
    (ident : GithubIdentity) (cands : List String)
    (h : ∀ r ∈ store.rng, r.uuid ≠ state) :
    github_auth_make_comment store now blog state ident cands
      = some ({ store with rng := reapRng now store.rng }, HandlerResponse.badRequestTimeout)
    ∧ ∀ r ∈ reapRng now store.rng, r ∈ store.rng := by
  have hany : (reapRng now store.rng).any (fun r => r.uuid == state) = false := by
    rw [List.any_eq_false]
    intro r hr
    simp [h r (List.mem_of_mem_filter hr)]
  constructor
  · unfold github_auth_make_comment check_rng_uuid
    simp [hany]
  · intro r hr
    exact List.mem_of_mem_filter hr

/-- C3 witness: a concrete run of the amended statement, with one expired
row reaped away by the rejected call. -/
theorem C3_witness :
    github_auth_make_comment ⟨[], [], [⟨"a", 0⟩]⟩ 10000 "b" "tok" ⟨5, "n", "u", "av"⟩ ["c"]
      = some ({ (⟨[], [], [⟨"a", 0⟩]⟩ : Store) with rng := reapRng 10000 [⟨"a", 0⟩] },
          HandlerResponse.badRequestTimeout)
    ∧ ∀ r ∈ reapRng 10000 [(⟨"a", 0⟩ : RngRow)], r ∈ [(⟨"a", 0⟩ : RngRow)] :=
  C3_amended_unissued_token_rejected ⟨[], [], [⟨"a", 0⟩]⟩ 10000 "b" "tok" ⟨5, "n", "u", "av"⟩
    ["c"] (by decide)

/-- C4 counterexample: with an entirely empty store — in particular no
published row with id "c1" — `login_to_edit_comment` does not fail: it
issues the fresh token "tok", records it in `GITHUB_RNG`, and answers with
the OAuth redirect, contradicting the claim that the call fails with
`NotFound` and issues no token. -/
theorem C4_counterexample :
    login_to_edit_comment ⟨[], [], []⟩ 0 "c1" ["tok"]
      = some (⟨[], [], [⟨"tok", 0⟩]⟩, HandlerResponse.redirectPage "tok" "c1") := by decide

/-- C4 amended: the begin-edit entry point issues and records a fresh
correlation token unconditionally — it never consults the comment table —
and the existence check is deferred to the OAuth callback
`github_auth_edit_comment`, which rejects before any pending binding is
written when no published row with the requested id exists. -/
theorem C4_amended_token_issued_unconditionally (store : Store) (now : Nat) (cid : String)
    (tok : String) (cands : List String)
    (hfind : cands.find? (fun c => !has_psuedo_commment_with_state store.pseudo c) = some tok)
    (hdup : (reapRng now store.rng).any (fun r => r.uuid == tok) = false) :
    (login_to_edit_comment store now cid cands
        = some ({ store with rng := reapRng now store.rng ++ [⟨tok, now⟩] },
            HandlerResponse.redirectPage tok cid))
    ∧ ∀ ident : GithubIdentity, ∀ state2 : String, ∀ cands2 : List String,
        (∀ r ∈ store.comments, r.uuid ≠ cid) →
        ∃ resp, github_auth_edit_comment store now cid state2 ident cands2
            = some ({ store with rng := reapRng now store.rng }, resp)
          ∧ (resp = HandlerResponse.badRequestTimeout
              ∨ resp = HandlerResponse.badRequestNotOwner) := by
  constructor
  · unfold login_to_edit_comment create_rng_uuid
    rw [hfind]
    simp [hdup]
  · intro ident state2 cands2 hnone
    apply github_auth_edit_comment_rejects
    rw [← Bool.not_eq_true, check_edit_comment_auth_iff]
    rintro ⟨r, hr, huuid, _⟩
    exact hnone r hr huuid

/-- C4 witness: a concrete run of the amended statement on the empty store. -/
theorem C4_witness :
    (login_to_edit_comment ⟨[], [], []⟩ 0 "c1" ["tok"]
        = some ({ (⟨[], [], []⟩ : Store) with rng := reapRng 0 [] ++ [⟨"tok", 0⟩] },
            HandlerResponse.redirectPage "tok" "c1"))
    ∧ ∀ ident : GithubIdentity, ∀ state2 : String, ∀ cands2 : List String,
        (∀ r ∈ (⟨[], [], []⟩ : Store).comments, r.uuid ≠ "c1") →
        ∃ resp, github_auth_edit_comment ⟨[], [], []⟩ 0 "c1" state2 ident cands2
            = some ({ (⟨[], [], []⟩ : Store) with rng := reapRng 0 [] }, resp)
          ∧ (resp = HandlerResponse.badRequestTimeout
              ∨ resp = HandlerResponse.badRequestNotOwner) :=
  C4_amended_token_issued_unconditionally ⟨[], [], []⟩ 0 "c1" "tok" ["tok"] (by decide)
    (by decide)

theorem mem_reapRng_live (now : Nat) (l : List RngRow) (r : RngRow) (hr : r ∈ reapRng now l) :
    r ∈ l ∧ now < r.date + 1 + expiryWindow := by
  have h := List.mem_filter.mp hr
  exact ⟨h.1, by simpa [rngRowLive] using h.2⟩

theorem mem_reapPseudo_live (now : Nat) (l : List PseudoRow) (r : PseudoRow)
    (hr : r ∈ reapPseudo now l) : r ∈ l ∧ now < r.date + 1 + expiryWindow := by
  have h := List.mem_filter.mp hr
  exact ⟨h.1, by simpa [pseudoRowLive] using h.2⟩

/-- C5 counterexample: `add_comment` reads pending rows but performs no reap
first: the single pending row is dated 0, hence long expired at time 10000
(`pseudoRowLive` is false), yet the call observes it, publishes a comment
from it and succeeds — so it is not the case that every operation reading
pending rows first deletes those older than the window. -/
theorem C5_counterexample :
    pseudoRowLive 10000 ⟨"pu", "st", 1, "n", "u", "a", some "blog", none, 0⟩ = false
    ∧ add_comment ⟨[], [⟨"pu", "st", 1, "n", "u", "a", some "blog", none, 0⟩], []⟩ "st" "hello"
        ["2025-10-12 0:00:00.0 +00:00:00"]
      = some (⟨[⟨derivePublishId "blog" 1 "2025-10-12 0:00:00.0 +00:00:00", "blog", 1, "n", "u",
          "a", "hello"⟩], [], []⟩, Except.ok "blog") :=
  ⟨by decide, rfl⟩

/-- C5 amended: the token operations do reap before reading — a true
`check_rng_uuid` implies an unexpired matching token row — and
`add_pseudo_comment_data` reaps before inserting, so on success every
pending row it leaves behind is within the window; but operations that only
read pending rows (`add_comment`, `edit_comment`) run no reap and can
observe expired pending rows. -/
theorem C5_amended_reap_on_token_ops (store : Store) (now : Nat) (u : String) :
    ((check_rng_uuid store now u).2 = true →
      ∃ r ∈ store.rng, r.uuid = u ∧ now < r.date + 1 + expiryWindow)
    ∧ (∀ state uid un uu av bid cid cands store2 res,
        add_pseudo_comment_data store now state uid un uu av bid cid cands
          = some (store2, res) →
        ∀ r ∈ store2.pseudo, now < r.date + 1 + expiryWindow) := by
  constructor
  · intro h
    rw [check_rng_uuid] at h
    simp only [List.any_eq_true] at h
    obtain ⟨r, hr, hu⟩ := h
    obtain ⟨hmem, hlive⟩ := mem_reapRng_live now store.rng r hr
    exact ⟨r, hmem, by simpa using hu, hlive⟩
  · intro state uid un uu av bid cid cands store2 res h r hr
    simp only [add_pseudo_comment_data] at h
    split at h
    · exact absurd h (by simp)
    · split at h
      · injection h with h2
        rw [Prod.mk.injEq] at h2
        rw [← h2.1] at hr
        exact (mem_reapPseudo_live now store.pseudo r hr).2
      · injection h with h2
        rw [Prod.mk.injEq] at h2
        rw [← h2.1] at hr
        simp only [List.mem_append, List.mem_singleton] at hr
        cases hr with
        | inl h4 => exact (mem_reapPseudo_live now store.pseudo r h4).2
        | inr h4 =>
          rw [h4]
          show now < now + 1 + expiryWindow
          omega

/-- C5 witness: a live token is found by `check_rng_uuid` and certified
unexpired. -/
theorem C5_witness :
    ∃ r ∈ [(⟨"t", 0⟩ : RngRow)], r.uuid = "t" ∧ 0 < r.date + 1 + expiryWindow :=
  (C5_amended_reap_on_token_ops ⟨[], [], [⟨"t", 0⟩]⟩ 0 "t").1 (by decide)

set_option maxRecDepth 1000000 in
/-- C6 counterexample: a store whose `COMMENT` table already holds the ids
derived from six consecutive clock readings.  The finalize loop is still
running after six attempts (more than the claimed bound of 5 retries): the
code has no retry counter and no failure path for exhausted retries — it
keeps looping while collisions recur. -/
theorem C6_counterexample :
    add_comment
      ⟨[⟨derivePublishId "blog" 1 "2025-10-12 0:00:00.0 +00:00:00", "blog", 1, "n", "u", "a", "c"⟩,
        ⟨derivePublishId "blog" 1 "2025-10-12 0:00:01.0 +00:00:00", "blog", 1, "n", "u", "a", "c"⟩,
        ⟨derivePublishId "blog" 1 "2025-10-12 0:00:02.0 +00:00:00", "blog", 1, "n", "u", "a", "c"⟩,
        ⟨derivePublishId "blog" 1 "2025-10-12 0:00:03.0 +00:00:00", "blog", 1, "n", "u", "a", "c"⟩,
        ⟨derivePublishId "blog" 1 "2025-10-12 0:00:04.0 +00:00:00", "blog", 1, "n", "u", "a", "c"⟩,
        ⟨derivePublishId "blog" 1 "2025-10-12 0:00:05.0 +00:00:00", "blog", 1, "n", "u", "a", "c"⟩],
       [⟨"pu", "st", 1, "n", "u", "a", some "blog", none, 0⟩], []⟩
      "st" "x"
      ["2025-10-12 0:00:00.0 +00:00:00", "2025-10-12 0:00:01.0 +00:00:00",
       "2025-10-12 0:00:02.0 +00:00:00", "2025-10-12 0:00:03.0 +00:00:00",
       "2025-10-12 0:00:04.0 +00:00:00", "2025-10-12 0:00:05.0 +00:00:00"]
      = none := by
  rfl

/-- C6 amended: the collision-retry loop of `add_comment` has no retry cap:
it returns an id exactly when some attempt derives one not present in the
`COMMENT` table (and that id is the first such, fresh by construction);
it is still looping after any number of colliding attempts. -/
theorem C6_amended_retry_unbounded (comments : List CommentRow) (blog : String) (uid : Nat)
    (times : List String) :
    (∀ id, derive_loop comments blog uid times = some id →
        comments.any (fun r => r.uuid == id) = false
        ∧ ∃ t ∈ times, id = derivePublishId blog uid t)
    ∧ (derive_loop comments blog uid times = none ↔
        ∀ t ∈ times, comments.any (fun r => r.uuid == derivePublishId blog uid t) = true) := by
  induction times with
  | nil => simp [derive_loop]
  | cons t ts ih =>
    constructor
    · intro id h
      by_cases hc : comments.any (fun r => r.uuid == derivePublishId blog uid t) = true
      · rw [derive_loop, if_pos hc] at h
        obtain ⟨hfresh, t2, ht2, hid⟩ := ih.1 id h
        exact ⟨hfresh, t2, List.mem_cons_of_mem t ht2, hid⟩
      · rw [derive_loop, if_neg hc] at h
        injection h with h2
        exact ⟨by rw [← h2]; exact Bool.eq_false_iff.mpr hc, t, List.mem_cons_self t ts, h2.symm⟩
    · by_cases hc : comments.any (fun r => r.uuid == derivePublishId blog uid t) = true
      · rw [derive_loop, if_pos hc, ih.2]
        simp only [List.mem_cons]
        constructor
        · intro h t2 ht2
          cases ht2 with
          | inl he => rw [he]; exact hc
          | inr hm => exact h t2 hm
        · intro h t2 ht2
          exact h t2 (Or.inr ht2)
      · rw [derive_loop, if_neg hc]
        simp only [List.mem_cons]
        constructor
        · intro h
          exact absurd h (by simp)
        · intro h
          exact absurd (h t (Or.inl rfl)) hc

/-- C6 witness: on an empty comment table the loop returns on the very first
attempt; the iff of the amended statement instantiated concretely. -/
theorem C6_witness :
    derive_loop [] "b" 1 ["t"] = none ↔
      ∀ t ∈ ["t"], List.any ([] : List CommentRow)
        (fun r => r.uuid == derivePublishId "b" 1 t) = true :=
  (C6_amended_retry_unbounded [] "b" 1 ["t"]).2

/-- C7 counterexample: the three derivation inputs are concatenated with no
separator, so two derivations whose timestamp components differ ("12"
versus "2") can feed the identical byte string to the hash — post "a",
owner 1, timestamp "12" and post "a1", owner 1, timestamp "2" both hash
"a112" — and therefore yield the same id, contradicting the claim that
differing timestamps yield different ids. -/
theorem C7_counterexample :
    derivePublishId "a" 1 "12" = derivePublishId "a1" 1 "2" ∧ ("12" : String) ≠ "2" :=
  ⟨rfl, by decide⟩

/-- C7 amended: the derivation is deterministic — the id is a function of
the concatenated `post_id`/decimal `owner_id`/timestamp bytes, so equal
concatenations give equal ids — and with `post_id` and `owner_id` held
fixed, distinct timestamps always produce distinct hash inputs (so ids
differ exactly when the truncated hash does not collide); only across
different `(post, owner)` pairs can differing timestamps coincide, because
the components are concatenated without separators. -/
theorem C7_amended_derivation_determinism (p1 : String) (u1 : Nat) (t1 : String) (p2 : String)
    (u2 : Nat) (t2 : String) :
    (combinedBytes p1 u1 t1 = combinedBytes p2 u2 t2 →
      derivePublishId p1 u1 t1 = derivePublishId p2 u2 t2)
    ∧ (p1 = p2 → u1 = u2 → t1 ≠ t2 → combinedBytes p1 u1 t1 ≠ combinedBytes p2 u2 t2) := by
  constructor
  · intro h
    unfold derivePublishId
    rw [h]
  · intro hp hu hne h
    subst hp
    subst hu
    unfold combinedBytes at h
    have h2 := List.append_cancel_left h
    have h3 : t1.data = t2.data := by
      have hinj : Function.Injective Char.toNat := fun a b hab =>
        Char.eq_of_val_eq (UInt32.toNat.inj hab)
      exact List.map_injective_iff.mpr hinj h2
    apply hne
    cases t1
    cases t2
    exact congrArg String.mk h3

/-- C7 witness: concrete instances of both halves of the amended statement. -/
theorem C7_witness :
    derivePublishId "p" 7 "t" = derivePublishId "p" 7 "t"
    ∧ combinedBytes "p" 0 "x" ≠ combinedBytes "p" 0 "y" :=
  ⟨(C7_amended_derivation_determinism "p" 7 "t" "p" 7 "t").1 rfl,
   (C7_amended_derivation_determinism "p" 0 "x" "p" 0 "y").2 rfl rfl (by decide)⟩

theorem create_rng_uuid_ok (store store2 : Store) (now : Nat) (cands : List String) (t : String)
    (h : create_rng_uuid store now cands = some (store2, Except.ok t)) :
    store2 = { store with rng := reapRng now store.rng ++ [⟨t, now⟩] }
    ∧ (reapRng now store.rng).any (fun r => r.uuid == t) = false := by
  simp only [create_rng_uuid] at h
  split at h
  · exact absurd h (by simp)
  · split at h
    · injection h with h2
      rw [Prod.mk.injEq] at h2
      exact absurd h2.2 (by simp)
    · rename_i hdup
      injection h with h2
      rw [Prod.mk.injEq] at h2
      obtain ⟨hs, ht⟩ := h2
      injection ht with ht2
      subst ht2
      exact ⟨hs.symm, Bool.eq_false_iff.mpr hdup⟩

/-- C8: a token issued by `create_rng_uuid` at time `now` is seen by
`check_rng_uuid` immediately (same time, no intervening operation), and is
no longer seen once the 60-minute window has strictly elapsed, because the
reap run by `check_rng_uuid` removes it. -/
theorem C8_token_lifecycle (store store2 : Store) (now now2 : Nat) (cands : List String)
    (t : String)
    (hcreate : create_rng_uuid store now cands = some (store2, Except.ok t))
    (hlater : now + expiryWindow < now2) :
    (check_rng_uuid store2 now t).2 = true ∧ (check_rng_uuid store2 now2 t).2 = false := by
  obtain ⟨hs, hfresh⟩ := create_rng_uuid_ok store store2 now cands t hcreate
  subst hs
  constructor
  · rw [check_rng_uuid]
    simp only [reapRng, List.filter_append, List.any_append]
    have hlive : rngRowLive now ⟨t, now⟩ = true := by
      simp only [rngRowLive, decide_eq_true_eq]
      omega
    simp [hlive]
  · rw [check_rng_uuid]
    simp only [reapRng, List.filter_append, List.any_append]
    have hdead : rngRowLive now2 ⟨t, now⟩ = false := by
      simp only [rngRowLive, decide_eq_false_iff_not]
      omega
    have hsingle : List.filter (rngRowLive now2) [(⟨t, now⟩ : RngRow)] = [] := by
      simp [hdead]
    have hleft : (List.filter (rngRowLive now2)
          (List.filter (rngRowLive now) store.rng)).any (fun r => r.uuid == t) = false := by
      rw [List.any_eq_false]
      intro r hr
      have hmem := (List.mem_filter.mp hr).1
      exact List.any_eq_false.mp hfresh r hmem
    rw [hleft, hsingle]
    simp

/-- C8 witness: a token issued into the empty store at time 0 checks true at
time 0 and false at time 4000 (more than 60 minutes later). -/
theorem C8_witness :
    (check_rng_uuid ⟨[], [], [⟨"t", 0⟩]⟩ 0 "t").2 = true
    ∧ (check_rng_uuid ⟨[], [], [⟨"t", 0⟩]⟩ 4000 "t").2 = false :=
  C8_token_lifecycle ⟨[], [], []⟩ ⟨[], [], [⟨"t", 0⟩]⟩ 0 4000 ["t"] "t" rfl (by decide)

/-- C9: in the OAuth relay of the callback handler, the authorization-code
exchange is performed exactly once; the identity fetch is attempted at most
three times; no response is surfaced as a fatal error unless all three
attempts failed (and conversely); and a fixed three-second sleep follows
each failed fetch attempt — the sleep count equals the failed-attempt
count. -/
theorem C9_bounded_fetch_retry_single_exchange (r0 r1 r2 : FetchOutcome) :
    ((github_auth_relay [r0, r1, r2]).1.count RelayEvent.exchangeCall = 1)
    ∧ ((github_auth_relay [r0, r1, r2]).1.count RelayEvent.fetchCall ≤ 3)
    ∧ ((github_auth_relay [r0, r1, r2]).2 = false ↔
        r0 ≠ FetchOutcome.ok ∧ r1 ≠ FetchOutcome.ok ∧ r2 ≠ FetchOutcome.ok)
    ∧ ((github_auth_relay [r0, r1, r2]).1.count RelayEvent.sleepThreeSeconds
        = (github_auth_relay [r0, r1, r2]).1.count RelayEvent.fetchCall
          - (if (github_auth_relay [r0, r1, r2]).2 then 1 else 0)) := by
  cases r0 <;> cases r1 <;> cases r2 <;> decide

/-- C9 witness: with a failure then a success, the relay exchanged once. -/
theorem C9_witness :
    (github_auth_relay [FetchOutcome.httpError, FetchOutcome.ok, FetchOutcome.ok]).1.count
      RelayEvent.exchangeCall = 1 :=
  (C9_bounded_fetch_retry_single_exchange FetchOutcome.httpError FetchOutcome.ok
    FetchOutcome.ok).1

/-- C10: when `add_comment` succeeds via correlation token `state`, the
resulting store holds no pending row with that token (the finalize deleted
them), so any immediately subsequent finalize with the same token fails
with the not-found error and returns the store unchanged — no second
published comment is inserted. -/
theorem C10_finalize_consumes_token (store store2 : Store) (state c : String)
    (times : List String) (blog : String)
    (h : add_comment store state c times = some (store2, Except.ok blog)) :
    store2.pseudo.filter (fun r => r.state == state) = []
    ∧ ∀ c2 times2, add_comment store2 state c2 times2
        = some (store2,
            Except.error "PsuedoComment not found, Commentor not authenticated or timed out!") := by
  have hnil : store2.pseudo.filter (fun r => r.state == state) = [] := by
    simp only [add_comment] at h
    split at h
    · injection h with h2
      rw [Prod.mk.injEq] at h2
      exact absurd h2.2 (by simp)
    · split at h
      · injection h with h2
        rw [Prod.mk.injEq] at h2
        exact absurd h2.2 (by simp)
      · split at h
        · exact absurd h (by simp)
        · injection h with h2
          rw [Prod.mk.injEq] at h2
          rw [← h2.1]
          show (store.pseudo.filter (fun r => !(r.state == state))).filter
              (fun r => r.state == state) = []
          rw [List.filter_filter]
          rw [List.filter_eq_nil_iff]
          intro a _
          cases ha : a.state == state <;> simp [ha]
  refine ⟨hnil, fun c2 times2 => ?_⟩
  simp only [add_comment, hnil]

/-- C10 witness: a concrete successful finalize, after which the repeated
call with the same token fails and changes nothing. -/
theorem C10_witness :
    (⟨[⟨derivePublishId "b" 1 "t", "b", 1, "n", "u", "a", "hello"⟩], [], []⟩ : Store).pseudo.filter
        (fun r => r.state == "st") = []
    ∧ ∀ c2 times2,
        add_comment ⟨[⟨derivePublishId "b" 1 "t", "b", 1, "n", "u", "a", "hello"⟩], [], []⟩ "st"
            c2 times2
          = some (⟨[⟨derivePublishId "b" 1 "t", "b", 1, "n", "u", "a", "hello"⟩], [], []⟩,
              Except.error
                "PsuedoComment not found, Commentor not authenticated or timed out!") :=
  C10_finalize_consumes_token ⟨[], [⟨"pu", "st", 1, "n", "u", "a", some "b", none, 0⟩], []⟩
    ⟨[⟨derivePublishId "b" 1 "t", "b", 1, "n", "u", "a", "hello"⟩], [], []⟩ "st" "hello" ["t"]
    "b" rfl

end Backend
